import Mathlib

/-!
Shallow embedding of `src/setup_github_issues.py` (DubiWork/maaser-tracker).

The script is a batch driver: it shells out to the `gh` CLI once per static
record (labels, then milestones, then issues), captures stdout/stderr, and on
success extracts an identifier.  We model the external world as a
deterministic function `Env` from the spawned argv to a process result, and
every driver function returns, alongside its value, an `Effects` record of
the argv lists it spawned and the lines it printed to stdout and stderr.

Python specifics modelled explicitly:
  - `subprocess.run(..., check=True)` raises on a non-zero exit code; the
    wrapper catches exactly that and returns `None` (here `Option.none`).
  - `json.loads(result)["number"]` in `create_milestones` is *not* inside a
    try/except: a successful invocation whose non-empty trimmed output fails
    to parse as a JSON object carrying a `"number"` key raises an uncaught
    exception and aborts the whole run.  Driver functions that can abort
    return `Except (String × Effects)`, carrying the exception name and the
    effects performed up to the abort.
  - Python `dict` is modelled as an insertion-ordered association list with
    overwrite-on-assign (`dictSet`/`dictGet`).
  - JSON numbers are modelled as integers (the script only ever reads the
    integral milestone `"number"` field; a fractional literal makes the
    modelled parser fail where Python would build a float).

The source file reads module-level constants `LABELS`, `MILESTONES`,
`ISSUES`; the driver functions here take the record lists as parameters, so
all theorems quantify over arbitrary record lists and in particular cover
the concrete constants.  `LABELS` and `MILESTONES` are reproduced verbatim
below; `ISSUES` is a further ~50 static records (long markdown bodies) whose
concrete content no driver behavior depends on, so it is not transcribed.
-/

namespace SetupGithubIssues

/-- Result of one spawned external process: exit code, captured stdout and
stderr (mirrors the fields of `subprocess.CompletedProcess` used). -/
structure ProcResult where
  returncode : Int
  stdout : String
  stderr : String
deriving DecidableEq

/-- The external world: each possible argv is mapped to the result the
spawned process would produce.  One run of the script is one `Env`. -/
def Env : Type := List String → ProcResult

/-- Observable effects of a driver fragment: the argv of every process it
spawned (in order), the lines printed to stdout, the lines to stderr. -/
structure Effects where
  calls : List (List String)
  out : List String
  err : List String
deriving DecidableEq

/-- Sequential composition of effects. -/
def Effects.append (a b : Effects) : Effects :=
  ⟨a.calls ++ b.calls, a.out ++ b.out, a.err ++ b.err⟩

instance : Append Effects := ⟨Effects.append⟩

/-- Effects of doing nothing. -/
def Effects.empty : Effects := ⟨[], [], []⟩

/-- OWNER constant of the script. -/
def OWNER : String := "DubiWork"

/-- REPO constant of the script. -/
def REPO : String := "maaser-tracker"

/-- One record of the static LABELS list. -/
structure LabelSpec where
  name : String
  color : String
  description : String
deriving DecidableEq

/-- One record of the static MILESTONES list (`due_on` is `None` on every
concrete record and never read by the driver). -/
structure MilestoneSpec where
  title : String
  description : String
  due_on : Option String
deriving DecidableEq

/-- One record of the static ISSUES list; `milestone = none` models absence
of the `"milestone"` key on the Python dict. -/
structure IssueSpec where
  title : String
  body : String
  labels : List String
  milestone : Option String
deriving DecidableEq

/-- The script's static LABELS list, verbatim. -/
def LABELS : List LabelSpec :=
  [⟨"epic", "7057ff", "Epic-level issue"⟩,
   ⟨"story", "0e8a16", "User story"⟩,
   ⟨"task", "1d76db", "Technical task"⟩,
   ⟨"bug", "d73a4a", "Bug fix"⟩,
   ⟨"P0-critical", "b60205", "Critical priority"⟩,
   ⟨"P1-high", "d93f0b", "High priority"⟩,
   ⟨"P2-medium", "fbca04", "Medium priority"⟩,
   ⟨"P3-low", "c2e0c6", "Low priority"⟩,
   ⟨"frontend", "bfdadc", "Frontend work"⟩,
   ⟨"backend", "fef2c0", "Backend/data work"⟩,
   ⟨"testing", "d4c5f9", "Testing work"⟩,
   ⟨"infrastructure", "f9d0c4", "CI/CD, DevOps"⟩,
   ⟨"pwa", "5319e7", "PWA related"⟩,
   ⟨"i18n", "bfd4f2", "Internationalization"⟩]

/-- The script's static MILESTONES list, verbatim. -/
def MILESTONES : List MilestoneSpec :=
  [⟨"v0.2.0 - Foundation", "Foundation and Infrastructure + PWA", none⟩,
   ⟨"v0.3.0 - Core Features", "Core Feature Enhancements + Settings", none⟩,
   ⟨"v0.4.0 - Cloud & Analytics", "Cloud Sync + Analytics and Reporting", none⟩,
   ⟨"v1.0.0 - Production Release", "Polish and Production Release", none⟩]

/-! ### Python dict, modelled as an insertion-ordered association list -/

/-- Python `d[k] = v`: overwrite in place if the key exists, else append. -/
def dictSet {α : Type} : List (String × α) → String → α → List (String × α)
  | [], k, v => [(k, v)]
  | (k', v') :: rest, k, v =>
    if k' = k then (k, v) :: rest else (k', v') :: dictSet rest k v

/-- Python `d[k]` / `d.get(k)`: the stored value, if the key is present. -/
def dictGet {α : Type} : List (String × α) → String → Option α
  | [], _ => none
  | (k', v') :: rest, k => if k' = k then some v' else dictGet rest k

/-- Python `k in d`. -/
def dictContains {α : Type} (d : List (String × α)) (k : String) : Bool :=
  (dictGet d k).isSome

/-! ### Python string primitives used by the script -/

/-- Python whitespace for `str.strip()` (the ASCII part: space, tab,
newline, carriage return, vertical tab, form feed). -/
def pyIsSpace (c : Char) : Bool :=
  c == ' ' || c == '\t' || c == '\n' || c == '\r' || c == Char.ofNat 11 || c == Char.ofNat 12

/-- Model of Python `s.strip()`: drop leading and trailing whitespace. -/
def pyStrip (s : String) : String :=
  String.mk (((s.data.dropWhile pyIsSpace).reverse.dropWhile pyIsSpace).reverse)

/-- Model of Python `s.split(sep)` for a one-character separator: split at
every occurrence, keeping empty fields (never returns an empty list). -/
def pySplit (sep : Char) : List Char → List (List Char)
  | [] => [[]]
  | c :: rest =>
    match pySplit sep rest with
    | [] => [[]]
    | g :: gs => if c = sep then [] :: g :: gs else (c :: g) :: gs

/-! ### JSON values and a model of `json.loads` -/

/-- Decoded JSON value (numbers restricted to integers, see header note). -/
inductive Json where
  | null
  | bool (b : Bool)
  | num (n : Int)
  | str (s : String)
  | arr (elems : List Json)
  | obj (fields : List (String × Json))

/-- Python `str()` of a decoded JSON value, as used by the script's f-strings
and by `str(milestone_numbers[...])`.  Scalar cases are exact; container
reprs are abbreviated placeholders (the script only ever formats the scalar
`"number"` field, and no claim touches a container value). -/
def pyStr : Json → String
  | .null => "None"
  | .bool b => if b then "True" else "False"
  | .num n => toString n
  | .str s => s
  | .arr _ => "[...]"
  | .obj _ => "\x7b...\x7d"

/-- JSON whitespace skipping (space, tab, newline, carriage return). -/
def skipWs : List Char → List Char
  | [] => []
  | c :: rest =>
    if c = ' ' ∨ c = '\t' ∨ c = '\n' ∨ c = '\r' then skipWs rest else c :: rest

/-- Value of a hex digit, if the character is one. -/
def hexVal (c : Char) : Option Nat :=
  if '0' ≤ c ∧ c ≤ '9' then some (c.toNat - 48)
  else if 'a' ≤ c ∧ c ≤ 'f' then some (c.toNat - 87)
  else if 'A' ≤ c ∧ c ≤ 'F' then some (c.toNat - 70)
  else none

/-- Parse the body of a JSON string literal (opening quote already
consumed), handling the standard escapes.  Fuel-indexed for termination. -/
def parseStringBody : Nat → List Char → List Char → Option (String × List Char)
  | 0, _, _ => none
  | _, [], _ => none
  | fuel + 1, c :: rest, acc =>
    if c = '"' then some (String.mk acc.reverse, rest)
    else if c = '\\' then
      match rest with
      | [] => none
      | e :: rest' =>
        if e = '"' then parseStringBody fuel rest' ('"' :: acc)
        else if e = '\\' then parseStringBody fuel rest' ('\\' :: acc)
        else if e = '/' then parseStringBody fuel rest' ('/' :: acc)
        else if e = 'n' then parseStringBody fuel rest' ('\n' :: acc)
        else if e = 't' then parseStringBody fuel rest' ('\t' :: acc)
        else if e = 'r' then parseStringBody fuel rest' ('\r' :: acc)
        else if e = 'b' then parseStringBody fuel rest' (Char.ofNat 8 :: acc)
        else if e = 'f' then parseStringBody fuel rest' (Char.ofNat 12 :: acc)
        else if e = 'u' then
          match rest' with
          | h1 :: h2 :: h3 :: h4 :: rest2 =>
            match hexVal h1, hexVal h2, hexVal h3, hexVal h4 with
            | some a, some b, some c2, some d =>
              parseStringBody fuel rest2 (Char.ofNat (((a * 16 + b) * 16 + c2) * 16 + d) :: acc)
            | _, _, _, _ => none
          | _ => none
        else none
    else parseStringBody fuel rest (c :: acc)

/-- Split a leading run of decimal digits off a character list. -/
def takeDigits : List Char → List Char × List Char
  | [] => ([], [])
  | c :: rest =>
    if c.isDigit then
      let (ds, r) := takeDigits rest
      (c :: ds, r)
    else ([], c :: rest)

/-- Numeric value of a digit run. -/
def digitsToNat (ds : List Char) : Nat :=
  ds.foldl (fun a c => a * 10 + (c.toNat - 48)) 0

/-- Parse a JSON integer literal at the head of the input.  Rejects leading
zeros (as Python's json does) and rejects a following `.`, `e` or `E`
(a float literal, which this model does not represent). -/
def parseIntLit (cs : List Char) : Option (Int × List Char) :=
  let (neg, cs') := match cs with
    | '-' :: rest => (true, rest)
    | _ => (false, cs)
  match takeDigits cs' with
  | ([], _) => none
  | (ds, rest) =>
    if ds.length > 1 ∧ ds.headI = '0' then none
    else
      match rest with
      | c :: _ =>
        if c = '.' ∨ c = 'e' ∨ c = 'E' then none
        else some (if neg then -(digitsToNat ds : Int) else (digitsToNat ds : Int), rest)
      | [] => some (if neg then -(digitsToNat ds : Int) else (digitsToNat ds : Int), rest)

mutual

/-- Parse one JSON value at the head of the input (leading whitespace
allowed).  Fuel-indexed recursive descent. -/
def parseValue : Nat → List Char → Option (Json × List Char)
  | 0, _ => none
  | fuel + 1, cs =>
    match skipWs cs with
    | [] => none
    | c :: rest =>
      if c = '"' then
        match parseStringBody (rest.length + 1) rest [] with
        | some (s, r) => some (.str s, r)
        | none => none
      else if c = '\x7b' then parseObjFields fuel rest []
      else if c = '[' then parseArrElems fuel rest []
      else if c = 't' then
        match rest with
        | 'r' :: 'u' :: 'e' :: r => some (.bool true, r)
        | _ => none
      else if c = 'f' then
        match rest with
        | 'a' :: 'l' :: 's' :: 'e' :: r => some (.bool false, r)
        | _ => none
      else if c = 'n' then
        match rest with
        | 'u' :: 'l' :: 'l' :: r => some (.null, r)
        | _ => none
      else
        match parseIntLit (c :: rest) with
        | some (n, r) => some (.num n, r)
        | none => none

/-- Parse the members of a JSON object, the opening brace already consumed;
`acc` holds the members parsed so far.  Duplicate keys overwrite, as in the
Python dict that `json.loads` builds. -/
def parseObjFields : Nat → List Char → List (String × Json) → Option (Json × List Char)
  | 0, _, _ => none
  | fuel + 1, cs, acc =>
    match skipWs cs with
    | [] => none
    | c :: rest =>
      if c = '\x7d' then
        if acc.isEmpty then some (.obj [], rest) else none
      else if c = '"' then
        match parseStringBody (rest.length + 1) rest [] with
        | none => none
        | some (k, r1) =>
          match skipWs r1 with
          | ':' :: r2 =>
            match parseValue fuel r2 with
            | none => none
            | some (v, r3) =>
              let acc' := dictSet acc k v
              match skipWs r3 with
              | ',' :: r4 => parseObjFields fuel r4 acc'
              | '\x7d' :: r4 => some (.obj acc', r4)
              | _ => none
          | _ => none
      else none

/-- Parse the elements of a JSON array, opening bracket already consumed. -/
def parseArrElems : Nat → List Char → List Json → Option (Json × List Char)
  | 0, _, _ => none
  | fuel + 1, cs, acc =>
    match skipWs cs with
    | [] => none
    | c :: rest =>
      if c = ']' then
        if acc.isEmpty then some (.arr [], rest) else none
      else
        match parseValue fuel (c :: rest) with
        | none => none
        | some (v, r1) =>
          match skipWs r1 with
          | ',' :: r2 => parseArrElems fuel r2 (acc ++ [v])
          | ']' :: r2 => some (.arr (acc ++ [v]), r2)
          | _ => none

end

/-- Model of Python `json.loads`: parse one value, require only whitespace
after it.  `none` models a raised `JSONDecodeError`. -/
def json_loads (s : String) : Option Json :=
  match parseValue (2 * s.length + 4) s.data with
  | some (v, rest) => if (skipWs rest).isEmpty then some v else none
  | none => none

/-- Model of Python subscription `data[k]` on a decoded JSON value: a
`KeyError`/`TypeError` (both uncaught in the script) is an `error`. -/
def pyGetItem (v : Json) (k : String) : Except String Json :=
  match v with
  | .obj fields =>
    match dictGet fields k with
    | some x => Except.ok x
    | none => Except.error ("KeyError: " ++ k)
  | _ => Except.error "TypeError: value is not an object"

/-! ### The command runner and the three batch phases -/

/-- Model of `run_gh_command(args)`: spawn `["gh"] + args`; on exit code 0
return the stripped stdout, otherwise print the captured stderr to the
error stream (the `except CalledProcessError` branch) and return `None`. -/
def run_gh_command (env : Env) (args : List String) : Option String × Effects :=
  let r := env (["gh"] ++ args)
  if r.returncode = 0 then
    (some (pyStrip r.stdout), ⟨[["gh"] ++ args], [], []⟩)
  else
    (none, ⟨[["gh"] ++ args], [], ["Error running gh command: " ++ r.stderr]⟩)

/-- The argv tail built for one label record inside `create_labels`. -/
def label_args (l : LabelSpec) : List String :=
  ["label", "create", l.name,
   "--color", l.color,
   "--description", l.description,
   "--repo", OWNER ++ "/" ++ REPO,
   "--force"]

/-- The per-record loop of `create_labels`: one invocation per record, a
confirmation line printed whenever the result is not `None` (note: tested
with `is not None`, so a successful empty output still confirms). -/
def create_labels_loop (env : Env) : List LabelSpec → Effects
  | [] => Effects.empty
  | l :: rest =>
    let step := run_gh_command env (label_args l)
    let e2 := match step.1 with
      | some _ => step.2 ++ ⟨[], ["  ✓ Created label: " ++ l.name], []⟩
      | none => step.2
    e2 ++ create_labels_loop env rest

/-- Model of `create_labels()`: header line, then the loop. -/
def create_labels (env : Env) (labels : List LabelSpec) : Effects :=
  ⟨[], ["Creating labels..."], []⟩ ++ create_labels_loop env labels

/-- The argv tail built for one milestone record inside `create_milestones`
(the raw-API pathway). -/
def milestone_args (m : MilestoneSpec) : List String :=
  ["api", "/repos/" ++ OWNER ++ "/" ++ REPO ++ "/milestones",
   "-f", "title=" ++ m.title,
   "-f", "description=" ++ m.description,
   "-f", "state=open"]

/-- The per-record loop of `create_milestones`, threading the accumulated
`milestone_numbers` dict.  A truthy result (non-`None`, non-empty) is fed to
`json.loads(result)["number"]`; a parse or key failure there is an uncaught
exception that aborts the run (`Except.error`, carrying the exception text
and the effects performed so far within the loop). -/
def create_milestones_loop (env : Env) :
    List MilestoneSpec → List (String × Json) →
    Except (String × Effects) (List (String × Json) × Effects)
  | [], acc => .ok (acc, Effects.empty)
  | m :: rest, acc =>
    let step := run_gh_command env (milestone_args m)
    match step.1 with
    | some s =>
      if s = "" then
        match create_milestones_loop env rest acc with
        | .ok (d, e) => .ok (d, step.2 ++ e)
        | .error (msg, e) => .error (msg, step.2 ++ e)
      else
        match json_loads s with
        | none => .error ("json.decoder.JSONDecodeError", step.2)
        | some data =>
          match pyGetItem data "number" with
          | .error msg => .error (msg, step.2)
          | .ok num =>
            let acc' := dictSet acc m.title num
            let e2 := step.2 ++
              ⟨[], ["  ✓ Created milestone: " ++ m.title ++ " (#" ++ pyStr num ++ ")"], []⟩
            match create_milestones_loop env rest acc' with
            | .ok (d, e) => .ok (d, e2 ++ e)
            | .error (msg, e) => .error (msg, e2 ++ e)
    | none =>
      match create_milestones_loop env rest acc with
      | .ok (d, e) => .ok (d, step.2 ++ e)
      | .error (msg, e) => .error (msg, step.2 ++ e)

/-- Model of `create_milestones()`: header line, loop from the empty dict,
returning the accumulated title → number mapping. -/
def create_milestones (env : Env) (milestones : List MilestoneSpec) :
    Except (String × Effects) (List (String × Json) × Effects) :=
  match create_milestones_loop env milestones [] with
  | .ok (d, e) => .ok (d, ⟨[], ["\nCreating milestones..."], []⟩ ++ e)
  | .error (msg, e) => .error (msg, ⟨[], ["\nCreating milestones..."], []⟩ ++ e)

/-- The `milestone_arg` local of `create_issues`: present exactly when the
record has a milestone title that is a key of the mapping, and then it
carries `str()` of the stored value. -/
def milestone_arg (issue : IssueSpec) (milestone_numbers : List (String × Json)) :
    List String :=
  match issue.milestone with
  | some t =>
    if dictContains milestone_numbers t then
      ["--milestone", pyStr ((dictGet milestone_numbers t).getD Json.null)]
    else []
  | none => []

/-- The full argv tail built for one issue record inside `create_issues`:
fixed arguments (labels comma-joined in declaration order) plus the
optional `milestone_arg` suffix. -/
def issue_args (issue : IssueSpec) (milestone_numbers : List (String × Json)) :
    List String :=
  ["issue", "create",
   "--title", issue.title,
   "--body", issue.body,
   "--label", String.intercalate "," issue.labels,
   "--repo", OWNER ++ "/" ++ REPO] ++ milestone_arg issue milestone_numbers

/-- The per-record loop of `create_issues`, threading the accumulated
`issue_numbers` dict.  On a truthy result the identifier is the last
`/`-separated segment of the output. -/
def create_issues_loop (env : Env) (milestone_numbers : List (String × Json)) :
    List IssueSpec → List (String × String) → List (String × String) × Effects
  | [], acc => (acc, Effects.empty)
  | issue :: rest, acc =>
    let step := run_gh_command env (issue_args issue milestone_numbers)
    match step.1 with
    | some s =>
      if s = "" then
        let next := create_issues_loop env milestone_numbers rest acc
        (next.1, step.2 ++ next.2)
      else
        let issue_number := String.mk ((pySplit '/' s.data).getLastD [])
        let acc' := dictSet acc issue.title issue_number
        let e2 := step.2 ++
          ⟨[], ["  ✓ Created issue #" ++ issue_number ++ ": " ++ issue.title], []⟩
        let next := create_issues_loop env milestone_numbers rest acc'
        (next.1, e2 ++ next.2)
    | none =>
      let next := create_issues_loop env milestone_numbers rest acc
      (next.1, step.2 ++ next.2)

/-- Model of `create_issues(milestone_numbers)`: header line, loop from the
empty dict, returning the accumulated title → identifier mapping. -/
def create_issues (env : Env) (issues : List IssueSpec)
    (milestone_numbers : List (String × Json)) :
    List (String × String) × Effects :=
  let r := create_issues_loop env milestone_numbers issues []
  (r.1, ⟨[], ["\nCreating issues..."], []⟩ ++ r.2)

/-- The final summary block printed by `main`. -/
def summary_out (labels : List LabelSpec) (milestones : List MilestoneSpec)
    (issue_numbers : List (String × String)) : List String :=
  ["\n✅ Setup complete!",
   "   Created " ++ toString labels.length ++ " labels",
   "   Created " ++ toString milestones.length ++ " milestones",
   "   Created " ++ toString issue_numbers.length ++ " issues",
   "\nView at: https://github.com/" ++ OWNER ++ "/" ++ REPO ++ "/issues"]

/-- Model of `main()`: the three phases strictly in order, then the summary.
The source reads the module-level record lists; they are parameters here.
An uncaught exception escaping `create_milestones` aborts the process (the
`Except.error` case: the interpreter exits with a non-zero status). -/
def main (env : Env) (labels : List LabelSpec) (milestones : List MilestoneSpec)
    (issues : List IssueSpec) : Except (String × Effects) Effects :=
  let e0 : Effects :=
    ⟨[], ["Setting up GitHub issues for " ++ OWNER ++ "/" ++ REPO ++ "\n"], []⟩
  let eL := create_labels env labels
  match create_milestones env milestones with
  | .error (msg, eM) => .error (msg, e0 ++ eL ++ eM)
  | .ok (milestone_numbers, eM) =>
    let r := create_issues env issues milestone_numbers
    .ok (e0 ++ eL ++ eM ++ r.2 ++ ⟨[], summary_out labels milestones r.1, []⟩)

/-! ### Concrete fixtures used by witnesses and counterexamples -/

/-- A sample label record. -/
def labelX : LabelSpec := ⟨"bug", "d73a4a", "Bug fix"⟩

/-- A sample milestone record. -/
def milestoneA : MilestoneSpec := ⟨"m1", "d1", none⟩

/-- A second sample milestone record. -/
def milestoneB : MilestoneSpec := ⟨"m2", "d2", none⟩

/-- A sample issue record referencing milestone title "m1". -/
def issueX : IssueSpec := ⟨"t", "b", ["a"], some "m1"⟩

/-- A world where every external invocation fails. -/
def envAllFail : Env := fun _ => ⟨1, "", "boom"⟩

/-- A world where every external invocation succeeds with empty output. -/
def envEmpty : Env := fun _ => ⟨0, "", ""⟩

/-- A world where the invocation for `milestoneA` succeeds but prints
non-JSON text; everything else fails. -/
def envBadMilestone : Env := fun argv =>
  if argv = ["gh"] ++ milestone_args milestoneA then ⟨0, "x", ""⟩ else ⟨1, "", "boom"⟩

/-- A world where the invocation for `milestoneA` succeeds with a milestone
JSON object numbered 7; everything else fails. -/
def envMilestone7 : Env := fun argv =>
  if argv = ["gh"] ++ milestone_args milestoneA then ⟨0, " \x7b\"number\": 7\x7d\n", ""⟩
  else ⟨1, "", "boom"⟩

/-- A world where the invocation for `issueX` (with an empty milestone
mapping) succeeds with an issue URL ending in 42; everything else fails. -/
def envIssue42 : Env := fun argv =>
  if argv = ["gh"] ++ issue_args issueX [] then
    ⟨0, "https://github.com/DubiWork/maaser-tracker/issues/42\n", ""⟩
  else ⟨1, "", "boom"⟩

/-! ### Basic lemmas about effects -/

@[simp]
theorem Effects.append_calls (a b : Effects) : (a ++ b).calls = a.calls ++ b.calls := rfl

@[simp]
theorem Effects.append_out (a b : Effects) : (a ++ b).out = a.out ++ b.out := rfl

@[simp]
theorem Effects.append_err (a b : Effects) : (a ++ b).err = a.err ++ b.err := rfl

@[simp]
theorem Effects.mk_calls (c o e : List _) : (Effects.mk c o e).calls = c := rfl

@[simp]
theorem Effects.mk_out (c o e : List _) : (Effects.mk c o e).out = o := rfl

@[simp]
theorem Effects.mk_err (c o e : List _) : (Effects.mk c o e).err = e := rfl

@[simp]
theorem Effects.empty_calls : Effects.empty.calls = [] := rfl

@[simp]
theorem Effects.empty_out : Effects.empty.out = [] := rfl

@[simp]
theorem Effects.empty_err : Effects.empty.err = [] := rfl

/-! ### Association-list (Python dict) lemmas -/

theorem dictGet_dictSet_self {α : Type} (d : List (String × α)) (k : String) (v : α) :
    dictGet (dictSet d k v) k = some v := by
  induction d with
  | nil => simp [dictSet, dictGet]
  | cons p rest ih =>
    obtain ⟨pk, pv⟩ := p
    by_cases h : pk = k
    · simp [dictSet, dictGet, h]
    · simp [dictSet, dictGet, h, ih]

theorem dictGet_dictSet_ne {α : Type} (d : List (String × α)) (k k' : String) (v : α)
    (h : k' ≠ k) : dictGet (dictSet d k v) k' = dictGet d k' := by
  have hk : ¬ k = k' := fun hk => h hk.symm
  induction d with
  | nil => simp [dictSet, dictGet, hk]
  | cons p rest ih =>
    obtain ⟨pk, pv⟩ := p
    by_cases h1 : pk = k
    · subst h1
      simp [dictSet, dictGet, hk]
    · simp [dictSet, dictGet, h1, ih]

/-! ### Structure lemmas for the label phase -/

theorem create_labels_loop_calls (env : Env) (ls : List LabelSpec) :
    (create_labels_loop env ls).calls = ls.map (fun l => ["gh"] ++ label_args l) := by
  induction ls with
  | nil => rfl
  | cons l rest ih =>
    simp only [create_labels_loop, run_gh_command, List.singleton_append]
    by_cases h : (env ("gh" :: label_args l)).returncode = 0 <;> simp [h, ih]

theorem create_labels_loop_err_mem (env : Env) (ls : List LabelSpec) (l : LabelSpec)
    (hl : l ∈ ls) (hfail : (env (["gh"] ++ label_args l)).returncode ≠ 0) :
    ("Error running gh command: " ++ (env (["gh"] ++ label_args l)).stderr)
      ∈ (create_labels_loop env ls).err := by
  simp only [List.singleton_append] at hfail ⊢
  induction ls with
  | nil => cases hl
  | cons x rest ih =>
    rcases List.mem_cons.mp hl with rfl | hmem
    · simp only [create_labels_loop, run_gh_command, List.singleton_append]
      rw [if_neg hfail]
      simp
    · simp only [create_labels_loop, run_gh_command, List.singleton_append]
      by_cases hx : (env ("gh" :: label_args x)).returncode = 0 <;>
        simp [hx, ih hmem]

theorem create_labels_loop_out_mem (env : Env) (ls : List LabelSpec) (l : LabelSpec)
    (hl : l ∈ ls) (hok : (env (["gh"] ++ label_args l)).returncode = 0) :
    ("  ✓ Created label: " ++ l.name) ∈ (create_labels_loop env ls).out := by
  simp only [List.singleton_append] at hok ⊢
  induction ls with
  | nil => cases hl
  | cons x rest ih =>
    rcases List.mem_cons.mp hl with rfl | hmem
    · simp only [create_labels_loop, run_gh_command, List.singleton_append]
      rw [if_pos hok]
      simp
    · simp only [create_labels_loop, run_gh_command, List.singleton_append]
      by_cases hx : (env ("gh" :: label_args x)).returncode = 0 <;>
        simp [hx, ih hmem]

/-! ### Structure lemmas for the milestone phase -/

/-- Wellformedness of one milestone invocation's result: if it succeeds
with non-empty stripped output, that output decodes to a JSON value with a
`"number"` member.  Exactly when this fails, the script raises an uncaught
exception inside `create_milestones`. -/
def milestoneOutputOk (r : ProcResult) : Prop :=
  r.returncode = 0 → pyStrip r.stdout ≠ "" →
    ∃ data num, json_loads (pyStrip r.stdout) = some data ∧
      pyGetItem data "number" = Except.ok num

/-- One-step unfolding of the milestone loop: failed invocation. -/
theorem cml_cons_fail (env : Env) (m : MilestoneSpec) (rest : List MilestoneSpec)
    (acc : List (String × Json))
    (h0 : (env (["gh"] ++ milestone_args m)).returncode ≠ 0) :
    create_milestones_loop env (m :: rest) acc =
      match create_milestones_loop env rest acc with
      | .ok (d, e) => .ok (d, (⟨[["gh"] ++ milestone_args m], [],
          ["Error running gh command: " ++ (env (["gh"] ++ milestone_args m)).stderr]⟩ : Effects) ++ e)
      | .error (msg, e) => .error (msg, (⟨[["gh"] ++ milestone_args m], [],
          ["Error running gh command: " ++ (env (["gh"] ++ milestone_args m)).stderr]⟩ : Effects) ++ e) := by
  simp only [List.singleton_append] at h0 ⊢
  cases hrec : create_milestones_loop env rest acc with
  | ok p =>
    obtain ⟨d, e⟩ := p
    simp [create_milestones_loop, run_gh_command, h0, hrec]
  | error p =>
    obtain ⟨msg, e⟩ := p
    simp [create_milestones_loop, run_gh_command, h0, hrec]

/-- One-step unfolding of the milestone loop: successful invocation with
empty stripped output (falsy in Python, so silently skipped). -/
theorem cml_cons_empty (env : Env) (m : MilestoneSpec) (rest : List MilestoneSpec)
    (acc : List (String × Json))
    (h0 : (env (["gh"] ++ milestone_args m)).returncode = 0)
    (hs : pyStrip (env (["gh"] ++ milestone_args m)).stdout = "") :
    create_milestones_loop env (m :: rest) acc =
      match create_milestones_loop env rest acc with
      | .ok (d, e) => .ok (d, (⟨[["gh"] ++ milestone_args m], [], []⟩ : Effects) ++ e)
      | .error (msg, e) => .error (msg, (⟨[["gh"] ++ milestone_args m], [], []⟩ : Effects) ++ e) := by
  simp only [List.singleton_append] at h0 hs ⊢
  cases hrec : create_milestones_loop env rest acc with
  | ok p =>
    obtain ⟨d, e⟩ := p
    simp [create_milestones_loop, run_gh_command, h0, hs, hrec]
  | error p =>
    obtain ⟨msg, e⟩ := p
    simp [create_milestones_loop, run_gh_command, h0, hs, hrec]

/-- One-step unfolding of the milestone loop: successful invocation whose
output decodes to a value carrying a `"number"` member. -/
theorem cml_cons_parse (env : Env) (m : MilestoneSpec) (rest : List MilestoneSpec)
    (acc : List (String × Json)) (data num : Json)
    (h0 : (env (["gh"] ++ milestone_args m)).returncode = 0)
    (hjs : json_loads (pyStrip (env (["gh"] ++ milestone_args m)).stdout) = some data)
    (hnum : pyGetItem data "number" = Except.ok num) :
    create_milestones_loop env (m :: rest) acc =
      match create_milestones_loop env rest (dictSet acc m.title num) with
      | .ok (d, e) => .ok (d, (⟨[["gh"] ++ milestone_args m],
          ["  ✓ Created milestone: " ++ m.title ++ " (#" ++ pyStr num ++ ")"], []⟩ : Effects) ++ e)
      | .error (msg, e) => .error (msg, (⟨[["gh"] ++ milestone_args m],
          ["  ✓ Created milestone: " ++ m.title ++ " (#" ++ pyStr num ++ ")"], []⟩ : Effects) ++ e) := by
  have hs : pyStrip (env (["gh"] ++ milestone_args m)).stdout ≠ "" := by
    intro he
    rw [he] at hjs
    cases hjs
  simp only [List.singleton_append] at h0 hs hjs ⊢
  cases hrec : create_milestones_loop env rest (dictSet acc m.title num) with
  | ok p =>
    obtain ⟨d, e⟩ := p
    simp [create_milestones_loop, run_gh_command, h0, hs, hjs, hnum, hrec]
    rfl
  | error p =>
    obtain ⟨msg, e⟩ := p
    simp [create_milestones_loop, run_gh_command, h0, hs, hjs, hnum, hrec]
    rfl

/-- One-step unfolding of the milestone loop: successful invocation with
non-empty output that fails to decode — uncaught `JSONDecodeError`. -/
theorem cml_cons_abort_parse (env : Env) (m : MilestoneSpec) (rest : List MilestoneSpec)
    (acc : List (String × Json))
    (h0 : (env (["gh"] ++ milestone_args m)).returncode = 0)
    (hs : pyStrip (env (["gh"] ++ milestone_args m)).stdout ≠ "")
    (hjs : json_loads (pyStrip (env (["gh"] ++ milestone_args m)).stdout) = none) :
    create_milestones_loop env (m :: rest) acc =
      .error ("json.decoder.JSONDecodeError",
        (⟨[["gh"] ++ milestone_args m], [], []⟩ : Effects)) := by
  simp only [List.singleton_append] at h0 hs hjs ⊢
  simp [create_milestones_loop, run_gh_command, h0, hs, hjs]

/-- One-step unfolding of the milestone loop: successful invocation whose
output decodes but carries no `"number"` member — uncaught
`KeyError`/`TypeError`. -/
theorem cml_cons_abort_key (env : Env) (m : MilestoneSpec) (rest : List MilestoneSpec)
    (acc : List (String × Json)) (data : Json) (msg : String)
    (h0 : (env (["gh"] ++ milestone_args m)).returncode = 0)
    (hjs : json_loads (pyStrip (env (["gh"] ++ milestone_args m)).stdout) = some data)
    (hnum : pyGetItem data "number" = Except.error msg) :
    create_milestones_loop env (m :: rest) acc =
      .error (msg, (⟨[["gh"] ++ milestone_args m], [], []⟩ : Effects)) := by
  have hs : pyStrip (env (["gh"] ++ milestone_args m)).stdout ≠ "" := by
    intro he
    rw [he] at hjs
    cases hjs
  simp only [List.singleton_append] at h0 hs hjs hnum ⊢
  simp [create_milestones_loop, run_gh_command, h0, hs, hjs, hnum]

/-- Combined specification of the milestone loop when it completes without
an uncaught exception: the spawned calls are exactly one per record in
declaration order; every failed invocation's stderr line is in the error
stream; and keys not among the processed titles are untouched. -/
theorem create_milestones_loop_spec (env : Env) (ms : List MilestoneSpec) :
    ∀ acc d e, create_milestones_loop env ms acc = .ok (d, e) →
      e.calls = ms.map (fun m => ["gh"] ++ milestone_args m)
      ∧ (∀ m ∈ ms, (env (["gh"] ++ milestone_args m)).returncode ≠ 0 →
          ("Error running gh command: " ++ (env (["gh"] ++ milestone_args m)).stderr) ∈ e.err)
      ∧ (∀ k, k ∉ ms.map MilestoneSpec.title → dictGet d k = dictGet acc k) := by
  induction ms with
  | nil =>
    intro acc d e h
    simp [create_milestones_loop] at h
    obtain ⟨rfl, rfl⟩ := h
    exact ⟨rfl, by simp, fun k _ => rfl⟩
  | cons m rest ih =>
    intro acc d e h
    by_cases h0 : (env (["gh"] ++ milestone_args m)).returncode = 0
    · by_cases hs : pyStrip (env (["gh"] ++ milestone_args m)).stdout = ""
      · rw [cml_cons_empty env m rest acc h0 hs] at h
        cases hrec : create_milestones_loop env rest acc with
        | ok p =>
          obtain ⟨d', e'⟩ := p
          rw [hrec] at h
          simp only [Except.ok.injEq, Prod.mk.injEq] at h
          obtain ⟨rfl, rfl⟩ := h
          obtain ⟨ihc, ihe, ihd⟩ := ih acc d' e' hrec
          refine ⟨by simp [ihc], ?_, ?_⟩
          · intro m' hm' hfail
            rcases List.mem_cons.mp hm' with rfl | hmem
            · exact absurd h0 hfail
            · have hin := ihe m' hmem hfail
              simpa using hin
          · intro k hk
            simp only [List.map_cons, List.mem_cons, not_or] at hk
            exact ihd k hk.2
        | error p =>
          rw [hrec] at h
          simp at h
      · cases hjs : json_loads (pyStrip (env (["gh"] ++ milestone_args m)).stdout) with
        | none =>
          rw [cml_cons_abort_parse env m rest acc h0 hs hjs] at h
          simp at h
        | some data =>
          cases hnum : pyGetItem data "number" with
          | error msg =>
            rw [cml_cons_abort_key env m rest acc data msg h0 hjs hnum] at h
            simp at h
          | ok num =>
            rw [cml_cons_parse env m rest acc data num h0 hjs hnum] at h
            cases hrec : create_milestones_loop env rest (dictSet acc m.title num) with
            | ok p =>
              obtain ⟨d', e'⟩ := p
              rw [hrec] at h
              simp only [Except.ok.injEq, Prod.mk.injEq] at h
              obtain ⟨rfl, rfl⟩ := h
              obtain ⟨ihc, ihe, ihd⟩ := ih (dictSet acc m.title num) d' e' hrec
              refine ⟨by simp [ihc], ?_, ?_⟩
              · intro m' hm' hfail
                rcases List.mem_cons.mp hm' with rfl | hmem
                · exact absurd h0 hfail
                · have hin := ihe m' hmem hfail
                  simpa using hin
              · intro k hk
                simp only [List.map_cons, List.mem_cons, not_or] at hk
                rw [ihd k hk.2]
                exact dictGet_dictSet_ne acc m.title k num hk.1
            | error p =>
              rw [hrec] at h
              simp at h
    · rw [cml_cons_fail env m rest acc h0] at h
      cases hrec : create_milestones_loop env rest acc with
      | ok p =>
        obtain ⟨d', e'⟩ := p
        rw [hrec] at h
        simp only [Except.ok.injEq, Prod.mk.injEq] at h
        obtain ⟨rfl, rfl⟩ := h
        obtain ⟨ihc, ihe, ihd⟩ := ih acc d' e' hrec
        refine ⟨by simp [ihc], ?_, ?_⟩
        · intro m' hm' hfail
          rcases List.mem_cons.mp hm' with rfl | hmem
          · simp
          · have hin := ihe m' hmem hfail
            exact List.mem_append_right _ hin
        · intro k hk
          simp only [List.map_cons, List.mem_cons, not_or] at hk
          exact ihd k hk.2
      | error p =>
        rw [hrec] at h
        simp at h

/-- Per-record content of the returned milestone mapping, for record lists
with pairwise-distinct titles (true of the static MILESTONES list): a
successful invocation whose output decodes with a `"number"` member ends up
as `title → number`; a failed invocation leaves the title untouched. -/
theorem create_milestones_loop_entry (env : Env) (ms : List MilestoneSpec) :
    ∀ acc d e, create_milestones_loop env ms acc = .ok (d, e) →
      (ms.map MilestoneSpec.title).Nodup →
      ∀ m ∈ ms,
        ((env (["gh"] ++ milestone_args m)).returncode = 0 →
          ∀ data num,
            json_loads (pyStrip (env (["gh"] ++ milestone_args m)).stdout) = some data →
            pyGetItem data "number" = Except.ok num →
            dictGet d m.title = some num)
        ∧ ((env (["gh"] ++ milestone_args m)).returncode ≠ 0 →
            dictGet d m.title = dictGet acc m.title) := by
  induction ms with
  | nil =>
    intro acc d e _ _ m hm
    cases hm
  | cons x rest ih =>
    intro acc d e h hnd m hm
    have hnds : (rest.map MilestoneSpec.title).Nodup := (List.nodup_cons.mp hnd).2
    have hxr : x.title ∉ rest.map MilestoneSpec.title := (List.nodup_cons.mp hnd).1
    rcases List.mem_cons.mp hm with rfl | hmem
    · constructor
      · intro h0 data num hjs hnum
        rw [cml_cons_parse env m rest acc data num h0 hjs hnum] at h
        cases hrec : create_milestones_loop env rest (dictSet acc m.title num) with
        | ok p =>
          obtain ⟨d', e'⟩ := p
          rw [hrec] at h
          simp only [Except.ok.injEq, Prod.mk.injEq] at h
          obtain ⟨rfl, rfl⟩ := h
          have hfr := (create_milestones_loop_spec env rest (dictSet acc m.title num) d' e' hrec).2.2
          rw [hfr m.title hxr]
          exact dictGet_dictSet_self acc m.title num
        | error p =>
          rw [hrec] at h
          simp at h
      · intro h0
        rw [cml_cons_fail env m rest acc h0] at h
        cases hrec : create_milestones_loop env rest acc with
        | ok p =>
          obtain ⟨d', e'⟩ := p
          rw [hrec] at h
          simp only [Except.ok.injEq, Prod.mk.injEq] at h
          obtain ⟨rfl, rfl⟩ := h
          exact (create_milestones_loop_spec env rest acc d' e' hrec).2.2 m.title hxr
        | error p =>
          rw [hrec] at h
          simp at h
    · have hmt : m.title ∈ rest.map MilestoneSpec.title := List.mem_map_of_mem _ hmem
      have hne : x.title ≠ m.title := fun heq => hxr (heq ▸ hmt)
      by_cases h0 : (env (["gh"] ++ milestone_args x)).returncode = 0
      · by_cases hs : pyStrip (env (["gh"] ++ milestone_args x)).stdout = ""
        · rw [cml_cons_empty env x rest acc h0 hs] at h
          cases hrec : create_milestones_loop env rest acc with
          | ok p =>
            obtain ⟨d', e'⟩ := p
            rw [hrec] at h
            simp only [Except.ok.injEq, Prod.mk.injEq] at h
            obtain ⟨rfl, rfl⟩ := h
            exact ih acc d' e' hrec hnds m hmem
          | error p =>
            rw [hrec] at h
            simp at h
        · cases hjs : json_loads (pyStrip (env (["gh"] ++ milestone_args x)).stdout) with
          | none =>
            rw [cml_cons_abort_parse env x rest acc h0 hs hjs] at h
            simp at h
          | some data =>
            cases hnum : pyGetItem data "number" with
            | error msg =>
              rw [cml_cons_abort_key env x rest acc data msg h0 hjs hnum] at h
              simp at h
            | ok num =>
              rw [cml_cons_parse env x rest acc data num h0 hjs hnum] at h
              cases hrec : create_milestones_loop env rest (dictSet acc x.title num) with
              | ok p =>
                obtain ⟨d', e'⟩ := p
                rw [hrec] at h
                simp only [Except.ok.injEq, Prod.mk.injEq] at h
                obtain ⟨rfl, rfl⟩ := h
                have hih := ih (dictSet acc x.title num) d' e' hrec hnds m hmem
                refine ⟨hih.1, ?_⟩
                intro hfail
                rw [hih.2 hfail]
                exact dictGet_dictSet_ne acc x.title m.title num (Ne.symm hne)
              | error p =>
                rw [hrec] at h
                simp at h
      · rw [cml_cons_fail env x rest acc h0] at h
        cases hrec : create_milestones_loop env rest acc with
        | ok p =>
          obtain ⟨d', e'⟩ := p
          rw [hrec] at h
          simp only [Except.ok.injEq, Prod.mk.injEq] at h
          obtain ⟨rfl, rfl⟩ := h
          exact ih acc d' e' hrec hnds m hmem
        | error p =>
          rw [hrec] at h
          simp at h

/-- The milestone loop never aborts when every successful invocation's
output is empty or decodes with a `"number"` member. -/
theorem create_milestones_loop_total (env : Env) (ms : List MilestoneSpec) :
    ∀ acc, (∀ m ∈ ms, milestoneOutputOk (env (["gh"] ++ milestone_args m))) →
      ∃ d e, create_milestones_loop env ms acc = .ok (d, e) := by
  induction ms with
  | nil =>
    intro acc _
    exact ⟨acc, Effects.empty, rfl⟩
  | cons m rest ih =>
    intro acc hwf
    have hwfr : ∀ m' ∈ rest, milestoneOutputOk (env (["gh"] ++ milestone_args m')) :=
      fun m' hm' => hwf m' (List.mem_cons_of_mem _ hm')
    have hwfm : milestoneOutputOk (env (["gh"] ++ milestone_args m)) :=
      hwf m (List.mem_cons_self _ _)
    by_cases h0 : (env (["gh"] ++ milestone_args m)).returncode = 0
    · by_cases hs : pyStrip (env (["gh"] ++ milestone_args m)).stdout = ""
      · obtain ⟨d, e, hrec⟩ := ih acc hwfr
        refine ⟨d, (⟨[["gh"] ++ milestone_args m], [], []⟩ : Effects) ++ e, ?_⟩
        rw [cml_cons_empty env m rest acc h0 hs, hrec]
      · obtain ⟨data, num, hjs, hnum⟩ := hwfm h0 hs
        obtain ⟨d, e, hrec⟩ := ih (dictSet acc m.title num) hwfr
        refine ⟨d, (⟨[["gh"] ++ milestone_args m],
          ["  ✓ Created milestone: " ++ m.title ++ " (#" ++ pyStr num ++ ")"], []⟩ : Effects) ++ e, ?_⟩
        rw [cml_cons_parse env m rest acc data num h0 hjs hnum, hrec]
    · obtain ⟨d, e, hrec⟩ := ih acc hwfr
      refine ⟨d, (⟨[["gh"] ++ milestone_args m], [],
        ["Error running gh command: " ++ (env (["gh"] ++ milestone_args m)).stderr]⟩ : Effects) ++ e, ?_⟩
      rw [cml_cons_fail env m rest acc h0, hrec]

/-! ### Structure lemmas for the issue phase -/

/-- One-step unfolding of the issue loop: failed invocation. -/
theorem cil_cons_fail (env : Env) (mns : List (String × Json)) (issue : IssueSpec)
    (rest : List IssueSpec) (acc : List (String × String))
    (h0 : (env (["gh"] ++ issue_args issue mns)).returncode ≠ 0) :
    create_issues_loop env mns (issue :: rest) acc =
      ((create_issues_loop env mns rest acc).1,
        (⟨[["gh"] ++ issue_args issue mns], [],
          ["Error running gh command: " ++ (env (["gh"] ++ issue_args issue mns)).stderr]⟩ : Effects)
          ++ (create_issues_loop env mns rest acc).2) := by
  simp only [List.singleton_append] at h0 ⊢
  simp [create_issues_loop, run_gh_command, h0]

/-- One-step unfolding of the issue loop: successful invocation with empty
stripped output (falsy, so no entry and no confirmation). -/
theorem cil_cons_empty (env : Env) (mns : List (String × Json)) (issue : IssueSpec)
    (rest : List IssueSpec) (acc : List (String × String))
    (h0 : (env (["gh"] ++ issue_args issue mns)).returncode = 0)
    (hs : pyStrip (env (["gh"] ++ issue_args issue mns)).stdout = "") :
    create_issues_loop env mns (issue :: rest) acc =
      ((create_issues_loop env mns rest acc).1,
        (⟨[["gh"] ++ issue_args issue mns], [], []⟩ : Effects)
          ++ (create_issues_loop env mns rest acc).2) := by
  simp only [List.singleton_append] at h0 hs ⊢
  simp [create_issues_loop, run_gh_command, h0, hs]

/-- One-step unfolding of the issue loop: successful invocation with
non-empty stripped output; the identifier is its last `/`-segment. -/
theorem cil_cons_add (env : Env) (mns : List (String × Json)) (issue : IssueSpec)
    (rest : List IssueSpec) (acc : List (String × String))
    (h0 : (env (["gh"] ++ issue_args issue mns)).returncode = 0)
    (hs : pyStrip (env (["gh"] ++ issue_args issue mns)).stdout ≠ "") :
    create_issues_loop env mns (issue :: rest) acc =
      ((create_issues_loop env mns rest
          (dictSet acc issue.title
            (String.mk ((pySplit '/' (pyStrip (env (["gh"] ++ issue_args issue mns)).stdout).data).getLastD [])))).1,
        (⟨[["gh"] ++ issue_args issue mns],
          ["  ✓ Created issue #" ++
            String.mk ((pySplit '/' (pyStrip (env (["gh"] ++ issue_args issue mns)).stdout).data).getLastD [])
            ++ ": " ++ issue.title], []⟩ : Effects)
          ++ (create_issues_loop env mns rest
            (dictSet acc issue.title
              (String.mk ((pySplit '/' (pyStrip (env (["gh"] ++ issue_args issue mns)).stdout).data).getLastD [])))).2) := by
  simp only [List.singleton_append] at h0 hs ⊢
  simp [create_issues_loop, run_gh_command, h0, hs]
  rfl

/-- Combined specification of the issue loop: one call per record in
declaration order (regardless of failures), every failed invocation's
stderr line in the error stream, and untouched keys outside the processed
titles. -/
theorem create_issues_loop_spec (env : Env) (mns : List (String × Json))
    (issues : List IssueSpec) :
    ∀ acc,
      (create_issues_loop env mns issues acc).2.calls
          = issues.map (fun i => ["gh"] ++ issue_args i mns)
      ∧ (∀ i ∈ issues, (env (["gh"] ++ issue_args i mns)).returncode ≠ 0 →
          ("Error running gh command: " ++ (env (["gh"] ++ issue_args i mns)).stderr)
            ∈ (create_issues_loop env mns issues acc).2.err)
      ∧ (∀ k, k ∉ issues.map IssueSpec.title →
          dictGet (create_issues_loop env mns issues acc).1 k = dictGet acc k) := by
  induction issues with
  | nil =>
    intro acc
    exact ⟨rfl, by simp, fun k _ => rfl⟩
  | cons issue rest ih =>
    intro acc
    by_cases h0 : (env (["gh"] ++ issue_args issue mns)).returncode = 0
    · by_cases hs : pyStrip (env (["gh"] ++ issue_args issue mns)).stdout = ""
      · rw [cil_cons_empty env mns issue rest acc h0 hs]
        obtain ⟨ihc, ihe, ihd⟩ := ih acc
        refine ⟨by simp [ihc], ?_, ?_⟩
        · intro i hi hfail
          rcases List.mem_cons.mp hi with rfl | hmem
          · exact absurd h0 hfail
          · have hin := ihe i hmem hfail
            simpa using hin
        · intro k hk
          simp only [List.map_cons, List.mem_cons, not_or] at hk
          exact ihd k hk.2
      · rw [cil_cons_add env mns issue rest acc h0 hs]
        obtain ⟨ihc, ihe, ihd⟩ := ih
          (dictSet acc issue.title
            (String.mk ((pySplit '/' (pyStrip (env (["gh"] ++ issue_args issue mns)).stdout).data).getLastD [])))
        refine ⟨by simpa using ihc, ?_, ?_⟩
        · intro i hi hfail
          rcases List.mem_cons.mp hi with rfl | hmem
          · exact absurd h0 hfail
          · have hin := ihe i hmem hfail
            simpa using hin
        · intro k hk
          simp only [List.map_cons, List.mem_cons, not_or] at hk
          rw [ihd k hk.2]
          exact dictGet_dictSet_ne acc issue.title k _ hk.1
    · rw [cil_cons_fail env mns issue rest acc h0]
      obtain ⟨ihc, ihe, ihd⟩ := ih acc
      refine ⟨by simp [ihc], ?_, ?_⟩
      · intro i hi hfail
        rcases List.mem_cons.mp hi with rfl | hmem
        · simp
        · have hin := ihe i hmem hfail
          exact List.mem_append_right _ hin
      · intro k hk
        simp only [List.map_cons, List.mem_cons, not_or] at hk
        exact ihd k hk.2

/-- Per-record content of the returned issue mapping, for record lists with
pairwise-distinct titles: a successful truthy invocation ends up as
`title → last slash-separated segment of the stripped output`; a failed invocation leaves
the title untouched. -/
theorem create_issues_loop_entry (env : Env) (mns : List (String × Json))
    (issues : List IssueSpec) :
    ∀ acc, (issues.map IssueSpec.title).Nodup →
      ∀ i ∈ issues,
        ((env (["gh"] ++ issue_args i mns)).returncode = 0 →
          pyStrip (env (["gh"] ++ issue_args i mns)).stdout ≠ "" →
          dictGet (create_issues_loop env mns issues acc).1 i.title
            = some (String.mk
                ((pySplit '/' (pyStrip (env (["gh"] ++ issue_args i mns)).stdout).data).getLastD [])))
        ∧ ((env (["gh"] ++ issue_args i mns)).returncode ≠ 0 →
            dictGet (create_issues_loop env mns issues acc).1 i.title = dictGet acc i.title) := by
  induction issues with
  | nil =>
    intro acc _ i hi
    cases hi
  | cons x rest ih =>
    intro acc hnd i hi
    have hnds : (rest.map IssueSpec.title).Nodup := (List.nodup_cons.mp hnd).2
    have hxr : x.title ∉ rest.map IssueSpec.title := (List.nodup_cons.mp hnd).1
    rcases List.mem_cons.mp hi with rfl | hmem
    · constructor
      · intro h0 hs
        rw [cil_cons_add env mns i rest acc h0 hs]
        have hfr := (create_issues_loop_spec env mns rest
          (dictSet acc i.title
            (String.mk ((pySplit '/' (pyStrip (env (["gh"] ++ issue_args i mns)).stdout).data).getLastD [])))).2.2
        rw [hfr i.title hxr]
        exact dictGet_dictSet_self acc i.title _
      · intro h0
        rw [cil_cons_fail env mns i rest acc h0]
        exact (create_issues_loop_spec env mns rest acc).2.2 i.title hxr
    · have hmt : i.title ∈ rest.map IssueSpec.title := List.mem_map_of_mem _ hmem
      have hne : x.title ≠ i.title := fun heq => hxr (heq ▸ hmt)
      by_cases h0 : (env (["gh"] ++ issue_args x mns)).returncode = 0
      · by_cases hs : pyStrip (env (["gh"] ++ issue_args x mns)).stdout = ""
        · rw [cil_cons_empty env mns x rest acc h0 hs]
          exact ih acc hnds i hmem
        · rw [cil_cons_add env mns x rest acc h0 hs]
          have hih := ih
            (dictSet acc x.title
              (String.mk ((pySplit '/' (pyStrip (env (["gh"] ++ issue_args x mns)).stdout).data).getLastD [])))
            hnds i hmem
          refine ⟨hih.1, ?_⟩
          intro hfail
          rw [hih.2 hfail]
          exact dictGet_dictSet_ne acc x.title i.title _ (Ne.symm hne)
      · rw [cil_cons_fail env mns x rest acc h0]
        exact ih acc hnds i hmem

/-- Top-level shape of a completed milestone phase: the header line
followed by the loop's effects. -/
theorem create_milestones_eq_ok (env : Env) (M : List MilestoneSpec)
    (d : List (String × Json)) (e : Effects)
    (h : create_milestones env M = .ok (d, e)) :
    ∃ e', create_milestones_loop env M [] = .ok (d, e')
      ∧ e = (⟨[], ["\nCreating milestones..."], []⟩ : Effects) ++ e' := by
  unfold create_milestones at h
  cases hrec : create_milestones_loop env M [] with
  | ok p =>
    obtain ⟨d', e'⟩ := p
    rw [hrec] at h
    simp only [Except.ok.injEq, Prod.mk.injEq] at h
    obtain ⟨rfl, rfl⟩ := h
    exact ⟨e', rfl, rfl⟩
  | error p =>
    obtain ⟨msg, e'⟩ := p
    rw [hrec] at h
    simp at h

/-! ### The claims -/

/-- C4: for every argument list, `run_gh_command` spawns exactly one
external process (argv `gh` followed by the arguments); when the process
exits with code 0 it returns the stdout stripped of leading and trailing
whitespace and prints nothing; when it exits with a non-zero code it
prints the captured stderr to the error stream and returns `none`. -/
theorem claim_C4_run_gh_command (env : Env) (args : List String) :
    (run_gh_command env args).2.calls = [["gh"] ++ args]
    ∧ (if (env (["gh"] ++ args)).returncode = 0 then
        (run_gh_command env args).1 = some (pyStrip (env (["gh"] ++ args)).stdout)
        ∧ (run_gh_command env args).2.err = []
      else
        (run_gh_command env args).1 = none
        ∧ (run_gh_command env args).2.err
            = ["Error running gh command: " ++ (env (["gh"] ++ args)).stderr]) := by
  simp only [List.singleton_append]
  by_cases h : (env ("gh" :: args)).returncode = 0 <;>
    simp [run_gh_command, h]

/-- C8: every label-creation argument list requests force/overwrite
semantics: it is exactly the `label create` argv carrying the record's
name, color and description together with the `--force` flag, and
`create_labels` spawns exactly that invocation once per record in order. -/
theorem claim_C8_label_force (env : Env) (labels : List LabelSpec) (l : LabelSpec) :
    label_args l = ["label", "create", l.name, "--color", l.color,
      "--description", l.description, "--repo", "DubiWork/maaser-tracker", "--force"]
    ∧ "--force" ∈ label_args l
    ∧ (create_labels env labels).calls = labels.map (fun x => ["gh"] ++ label_args x) := by
  refine ⟨rfl, by simp [label_args], ?_⟩
  simpa [create_labels] using create_labels_loop_calls env labels

/-- C9: the labels argument of every issue-creation invocation is the
record's label names joined with commas in declaration order, with no
deduplication and no validation (the argv is the fixed arguments with the
joined labels, plus the optional milestone suffix); in particular the
duplicated list `a, b, a` is passed as the literal text `a,b,a`. -/
theorem claim_C9_labels_argument (issue : IssueSpec) (mns : List (String × Json)) :
    issue_args issue mns
      = ["issue", "create", "--title", issue.title, "--body", issue.body,
         "--label", String.intercalate "," issue.labels,
         "--repo", "DubiWork/maaser-tracker"] ++ milestone_arg issue mns
    ∧ issue_args ⟨"t", "b", ["a", "b", "a"], none⟩ []
      = ["issue", "create", "--title", "t", "--body", "b",
         "--label", "a,b,a", "--repo", "DubiWork/maaser-tracker"] :=
  ⟨rfl, rfl⟩

/-- C1: `create_issues` spawns one invocation per record whose argv is the
base argv plus `milestone_arg`; `milestone_arg` is non-empty exactly when
the record carries a milestone title that is a key of the mapping, in
which case it is the `--milestone` argument with the stored identifier;
when the title is absent from the mapping (for example because the
milestone's creation failed and no entry was recorded) the argv is exactly
the base argv, with no error. -/
theorem claim_C1_milestone_argument (env : Env) (issues : List IssueSpec)
    (mns : List (String × Json)) (issue : IssueSpec) :
    (create_issues env issues mns).2.calls
        = issues.map (fun i => ["gh"] ++ issue_args i mns)
    ∧ (milestone_arg issue mns ≠ [] ↔
        ∃ t, issue.milestone = some t ∧ dictContains mns t = true)
    ∧ (∀ t, issue.milestone = some t → dictContains mns t = true →
        issue_args issue mns
          = ["issue", "create", "--title", issue.title, "--body", issue.body,
             "--label", String.intercalate "," issue.labels,
             "--repo", "DubiWork/maaser-tracker",
             "--milestone", pyStr ((dictGet mns t).getD Json.null)])
    ∧ ((∀ t, issue.milestone = some t → dictContains mns t = false) →
        issue_args issue mns
          = ["issue", "create", "--title", issue.title, "--body", issue.body,
             "--label", String.intercalate "," issue.labels,
             "--repo", "DubiWork/maaser-tracker"]) := by
  refine ⟨?_, ⟨?_, ?_⟩, ?_, ?_⟩
  · simpa [create_issues] using (create_issues_loop_spec env mns issues []).1
  · intro hne
    cases hm : issue.milestone with
    | none => simp [milestone_arg, hm] at hne
    | some t =>
      by_cases hc : dictContains mns t
      · exact ⟨t, rfl, hc⟩
      · simp [milestone_arg, hm, hc] at hne
  · rintro ⟨t, ht, hc⟩
    simp [milestone_arg, ht, hc]
  · intro t ht hc
    simp [issue_args, milestone_arg, ht, hc]
    rfl
  · intro hnone
    cases hm : issue.milestone with
    | none =>
      simp [issue_args, milestone_arg, hm]
      rfl
    | some t =>
      have hc := hnone t hm
      simp [issue_args, milestone_arg, hm, hc]
      rfl

/-- Witness for C1 at concrete inputs: with mapping `m1 → 7` the sample
issue's argv gains `--milestone 7`; with the empty mapping it does not. -/
theorem claim_C1_witness :
    issue_args issueX [("m1", Json.num 7)]
      = ["issue", "create", "--title", "t", "--body", "b", "--label", "a",
         "--repo", "DubiWork/maaser-tracker", "--milestone", "7"]
    ∧ issue_args issueX []
      = ["issue", "create", "--title", "t", "--body", "b", "--label", "a",
         "--repo", "DubiWork/maaser-tracker"] := by
  constructor
  · exact (claim_C1_milestone_argument envAllFail [] [("m1", Json.num 7)] issueX).2.2.1
      "m1" rfl rfl
  · exact (claim_C1_milestone_argument envAllFail [] [] issueX).2.2.2
      (fun t _ => rfl)

/-- C5: when `create_milestones` returns its mapping (no uncaught
exception) over records with pairwise-distinct titles (true of the static
MILESTONES list), a record whose invocation succeeded with output a
serialized JSON object whose `"number"` member is the number `n` is
recorded as `title → n`, and a record whose invocation failed has no entry
for its title. -/
theorem claim_C5_milestone_mapping (env : Env) (M : List MilestoneSpec)
    (d : List (String × Json)) (e : Effects)
    (hok : create_milestones env M = .ok (d, e))
    (hnd : (M.map MilestoneSpec.title).Nodup)
    (m : MilestoneSpec) (hm : m ∈ M) :
    ((env (["gh"] ++ milestone_args m)).returncode = 0 →
      ∀ fields n,
        json_loads (pyStrip (env (["gh"] ++ milestone_args m)).stdout)
          = some (Json.obj fields) →
        dictGet fields "number" = some (Json.num n) →
        dictGet d m.title = some (Json.num n))
    ∧ ((env (["gh"] ++ milestone_args m)).returncode ≠ 0 →
        dictGet d m.title = none) := by
  obtain ⟨e', hloop, rfl⟩ := create_milestones_eq_ok env M d e hok
  have h := create_milestones_loop_entry env M [] d e' hloop hnd m hm
  constructor
  · intro h0 fields n hjs hnum
    exact h.1 h0 (Json.obj fields) (Json.num n) hjs (by simp [pyGetItem, hnum])
  · intro h0
    rw [h.2 h0]
    rfl

/-- Witness for C5: in the world `envMilestone7` (milestone `m1` succeeds
with output a JSON object numbered 7, milestone `m2` fails) the returned
mapping has `m1 → 7` and no entry for `m2`. -/
theorem claim_C5_witness :
    dictGet [("m1", Json.num 7)] "m1" = some (Json.num 7)
    ∧ dictGet [("m1", Json.num 7)] "m2" = (none : Option Json) := by
  have h := claim_C5_milestone_mapping envMilestone7 [milestoneA, milestoneB]
    [("m1", Json.num 7)]
    ⟨[["gh"] ++ milestone_args milestoneA, ["gh"] ++ milestone_args milestoneB],
     ["\nCreating milestones...", "  ✓ Created milestone: m1 (#7)"],
     ["Error running gh command: boom"]⟩ rfl (by decide)
  constructor
  · exact (h milestoneA (by decide)).1 rfl [("number", Json.num 7)] 7 rfl rfl
  · exact (h milestoneB (by decide)).2 (by decide)

/-- C6: over issue records with pairwise-distinct titles, a record whose
invocation succeeds with truthy output is recorded as `title → the final
path segment of the stripped output after the last / separator`, and a
failed record has no entry. -/
theorem claim_C6_issue_identifier (env : Env) (issues : List IssueSpec)
    (mns : List (String × Json))
    (hnd : (issues.map IssueSpec.title).Nodup)
    (i : IssueSpec) (hi : i ∈ issues) :
    ((env (["gh"] ++ issue_args i mns)).returncode = 0 →
      pyStrip (env (["gh"] ++ issue_args i mns)).stdout ≠ "" →
      dictGet (create_issues env issues mns).1 i.title
        = some (String.mk
            ((pySplit '/' (pyStrip (env (["gh"] ++ issue_args i mns)).stdout).data).getLastD [])))
    ∧ ((env (["gh"] ++ issue_args i mns)).returncode ≠ 0 →
        dictGet (create_issues env issues mns).1 i.title = none) := by
  have h := create_issues_loop_entry env mns issues [] hnd i hi
  have he : (create_issues env issues mns).1 = (create_issues_loop env mns issues []).1 := rfl
  constructor
  · intro h0 hs
    rw [he, h.1 h0 hs]
  · intro h0
    rw [he, h.2 h0]
    rfl

/-- Witness for C6: a success output `.../issues/42` (plus trailing
newline, stripped before splitting) records the literal text `42`. -/
theorem claim_C6_witness :
    dictGet (create_issues envIssue42 [issueX] []).1 "t" = some "42" := by
  have h := (claim_C6_issue_identifier envIssue42 [issueX] [] (by decide) issueX
    (by decide)).1 rfl (by decide)
  exact h

/-- C10 (implicit): success is judged differently across phases.  On a
successful invocation `create_labels` prints the per-label confirmation
whatever the output (it only tests the result for absence), so in
particular for empty stripped output; `create_milestones` and
`create_issues` treat an empty successful output as falsy: no mapping
entry is recorded and no confirmation is printed. -/
theorem claim_C10_truthiness (env : Env) (l : LabelSpec) (m : MilestoneSpec)
    (i : IssueSpec) (mns : List (String × Json)) :
    ((env (["gh"] ++ label_args l)).returncode = 0 →
      create_labels env [l]
        = ⟨[["gh"] ++ label_args l],
           ["Creating labels...", "  ✓ Created label: " ++ l.name], []⟩)
    ∧ ((env (["gh"] ++ milestone_args m)).returncode = 0 →
        pyStrip (env (["gh"] ++ milestone_args m)).stdout = "" →
        create_milestones env [m]
          = .ok ([], ⟨[["gh"] ++ milestone_args m], ["\nCreating milestones..."], []⟩))
    ∧ ((env (["gh"] ++ issue_args i mns)).returncode = 0 →
        pyStrip (env (["gh"] ++ issue_args i mns)).stdout = "" →
        create_issues env [i] mns
          = ([], ⟨[["gh"] ++ issue_args i mns], ["\nCreating issues..."], []⟩)) := by
  refine ⟨?_, ?_, ?_⟩
  · intro h0
    simp only [List.singleton_append] at h0
    simp [create_labels, create_labels_loop, run_gh_command, h0]
    rfl
  · intro h0 hs
    unfold create_milestones
    rw [cml_cons_empty env m [] [] h0 hs]
    rfl
  · intro h0 hs
    unfold create_issues
    rw [cil_cons_empty env mns i [] [] h0 hs]
    rfl

/-- Witness for C10: in the world where every invocation succeeds with
empty output, the label phase still prints its confirmation while the
milestone and issue phases record nothing and print only their headers. -/
theorem claim_C10_witness :
    create_labels envEmpty [labelX]
      = ⟨[["gh"] ++ label_args labelX],
         ["Creating labels...", "  ✓ Created label: bug"], []⟩
    ∧ create_milestones envEmpty [milestoneA]
      = .ok ([], ⟨[["gh"] ++ milestone_args milestoneA], ["\nCreating milestones..."], []⟩)
    ∧ create_issues envEmpty [issueX] []
      = ([], ⟨[["gh"] ++ issue_args issueX []], ["\nCreating issues..."], []⟩) := by
  obtain ⟨h1, h2, h3⟩ := claim_C10_truthiness envEmpty labelX milestoneA issueX []
  exact ⟨h1 rfl, h2 rfl rfl, h3 rfl rfl⟩

/-- Counterexample to C2 as stated: in the world `envBadMilestone` the
milestone phase spawns only one invocation although two records are
declared — the first record's successful invocation returns non-JSON text
`x`, `json.loads` raises an uncaught exception, and the second record is
skipped. -/
theorem claim_C2_counterexample :
    create_milestones envBadMilestone [milestoneA, milestoneB]
      = .error ("json.decoder.JSONDecodeError",
          ⟨[["gh"] ++ milestone_args milestoneA], ["\nCreating milestones..."], []⟩)
    ∧ [["gh"] ++ milestone_args milestoneA]
        ≠ [milestoneA, milestoneB].map (fun m => ["gh"] ++ milestone_args m) :=
  ⟨rfl, by decide⟩

/-- C2 (amended): the label and issue phases spawn exactly one invocation
per declared record, in declaration order, regardless of failures; the
milestone phase does so as well provided every successful invocation's
output is empty or decodes to a JSON value with a `"number"` member —
otherwise the uncaught parse exception aborts the phase, skipping the
remaining records. -/
theorem claim_C2_amended (env : Env) (L : List LabelSpec) (I : List IssueSpec)
    (mns : List (String × Json)) (M : List MilestoneSpec) :
    (create_labels env L).calls = L.map (fun l => ["gh"] ++ label_args l)
    ∧ (create_issues env I mns).2.calls = I.map (fun i => ["gh"] ++ issue_args i mns)
    ∧ ((∀ m ∈ M, milestoneOutputOk (env (["gh"] ++ milestone_args m))) →
        ∃ d e, create_milestones env M = .ok (d, e)
          ∧ e.calls = M.map (fun m => ["gh"] ++ milestone_args m)) := by
  refine ⟨?_, ?_, ?_⟩
  · simpa [create_labels] using create_labels_loop_calls env L
  · simpa [create_issues] using (create_issues_loop_spec env mns I []).1
  · intro hwf
    obtain ⟨d, e', hloop⟩ := create_milestones_loop_total env M [] hwf
    refine ⟨d, (⟨[], ["\nCreating milestones..."], []⟩ : Effects) ++ e', ?_, ?_⟩
    · unfold create_milestones
      rw [hloop]
    · simpa using (create_milestones_loop_spec env M [] d e' hloop).1

/-- Witness for the amended C2: a failing milestone run still completes
and spawns its one invocation. -/
theorem claim_C2_witness :
    (create_milestones envAllFail [milestoneA]).toOption.isSome = true := by
  have hwf : ∀ m ∈ [milestoneA],
      milestoneOutputOk (envAllFail (["gh"] ++ milestone_args m)) := by
    intro m hm h0 hs
    simp [envAllFail] at h0
  obtain ⟨d, e, hok, hcalls⟩ :=
    (claim_C2_amended envAllFail [] [] [] [milestoneA]).2.2 hwf
  rw [hok]
  rfl

/-- Counterexample to C3 as stated: in the world `envBadMilestone` (one
successful milestone invocation printing non-JSON text `x`) the driver
does not complete with success — `main` aborts on the uncaught
`json.loads` exception. -/
theorem claim_C3_counterexample :
    main envBadMilestone [] [milestoneA, milestoneB] []
      = .error ("json.decoder.JSONDecodeError",
          ⟨[["gh"] ++ milestone_args milestoneA],
           ["Setting up GitHub issues for DubiWork/maaser-tracker\n",
            "Creating labels...", "\nCreating milestones..."], []⟩) := rfl

/-- C3 (amended): every failed invocation's captured stderr is written to
the error stream, and the driver completes with success however many
records fail — provided every successful milestone invocation's output is
empty or decodes to a JSON value with a `"number"` member (otherwise the
uncaught parse exception is a process-level error). -/
theorem claim_C3_amended (env : Env) (L : List LabelSpec) (M : List MilestoneSpec)
    (I : List IssueSpec)
    (hwf : ∀ m ∈ M, milestoneOutputOk (env (["gh"] ++ milestone_args m))) :
    ∃ mns e, main env L M I = .ok e
      ∧ (∀ l ∈ L, (env (["gh"] ++ label_args l)).returncode ≠ 0 →
          ("Error running gh command: " ++ (env (["gh"] ++ label_args l)).stderr) ∈ e.err)
      ∧ (∀ m ∈ M, (env (["gh"] ++ milestone_args m)).returncode ≠ 0 →
          ("Error running gh command: " ++ (env (["gh"] ++ milestone_args m)).stderr) ∈ e.err)
      ∧ (∀ i ∈ I, (env (["gh"] ++ issue_args i mns)).returncode ≠ 0 →
          ("Error running gh command: " ++ (env (["gh"] ++ issue_args i mns)).stderr) ∈ e.err) := by
  obtain ⟨mns, e', hloop⟩ := create_milestones_loop_total env M [] hwf
  have hcm : create_milestones env M
      = .ok (mns, (⟨[], ["\nCreating milestones..."], []⟩ : Effects) ++ e') := by
    unfold create_milestones
    rw [hloop]
  refine ⟨mns,
    (⟨[], ["Setting up GitHub issues for " ++ OWNER ++ "/" ++ REPO ++ "\n"], []⟩ : Effects)
      ++ create_labels env L
      ++ ((⟨[], ["\nCreating milestones..."], []⟩ : Effects) ++ e')
      ++ (create_issues env I mns).2
      ++ ⟨[], summary_out L M (create_issues env I mns).1, []⟩, ?_, ?_, ?_, ?_⟩
  · unfold main
    rw [hcm]
  · intro l hl hfail
    have hin := create_labels_loop_err_mem env L l hl hfail
    simp only [List.singleton_append] at hin
    simp [create_labels]
    tauto
  · intro m hm hfail
    have hin := (create_milestones_loop_spec env M [] mns e' hloop).2.1 m hm hfail
    simp only [List.singleton_append] at hin
    simp [create_labels]
    tauto
  · intro i hi hfail
    have hin := (create_issues_loop_spec env mns I []).2.1 i hi hfail
    simp only [List.singleton_append] at hin
    simp [create_issues]
    tauto

/-- Witness for the amended C3: a run where every invocation fails still
completes with success. -/
theorem claim_C3_witness :
    (main envAllFail [labelX] [milestoneA] [issueX]).toOption.isSome = true := by
  have hwf : ∀ m ∈ [milestoneA],
      milestoneOutputOk (envAllFail (["gh"] ++ milestone_args m)) := by
    intro m hm h0 hs
    simp [envAllFail] at h0
  obtain ⟨mns, e, hmain, hl, hm, hi⟩ :=
    claim_C3_amended envAllFail [labelX] [milestoneA] [issueX] hwf
  rw [hmain]
  rfl

/-- Counterexample to C7 as stated: in the world `envBadMilestone`, with an
issue record declared, the orchestration does not reach `create_issues`
and prints no summary — the milestone phase aborts the run. -/
theorem claim_C7_counterexample :
    main envBadMilestone [] [milestoneA, milestoneB] [issueX]
      = .error ("json.decoder.JSONDecodeError",
          ⟨[["gh"] ++ milestone_args milestoneA],
           ["Setting up GitHub issues for DubiWork/maaser-tracker\n",
            "Creating labels...", "\nCreating milestones..."], []⟩) := rfl

/-- C7 (amended): provided the milestone phase completes (its successful
invocations' outputs decode, so no uncaught exception), `main` runs
`create_labels`, `create_milestones`, `create_issues` strictly in that
order, each phase attempting every record (failures included), and finally
prints the summary with the count of declared labels, the count of
declared milestones, and the size of the mapping returned by
`create_issues`. -/
theorem claim_C7_amended (env : Env) (L : List LabelSpec) (M : List MilestoneSpec)
    (I : List IssueSpec) (mns : List (String × Json)) (eM : Effects)
    (hcm : create_milestones env M = .ok (mns, eM)) :
    main env L M I = .ok
      ((⟨[], ["Setting up GitHub issues for " ++ OWNER ++ "/" ++ REPO ++ "\n"], []⟩ : Effects)
        ++ create_labels env L ++ eM ++ (create_issues env I mns).2
        ++ ⟨[], summary_out L M (create_issues env I mns).1, []⟩)
    ∧ summary_out L M (create_issues env I mns).1
        = ["\n✅ Setup complete!",
           "   Created " ++ toString L.length ++ " labels",
           "   Created " ++ toString M.length ++ " milestones",
           "   Created " ++ toString (create_issues env I mns).1.length ++ " issues",
           "\nView at: https://github.com/DubiWork/maaser-tracker/issues"]
    ∧ (create_labels env L).calls = L.map (fun l => ["gh"] ++ label_args l)
    ∧ (create_issues env I mns).2.calls = I.map (fun i => ["gh"] ++ issue_args i mns) := by
  refine ⟨?_, rfl, ?_, ?_⟩
  · unfold main
    rw [hcm]
  · simpa [create_labels] using create_labels_loop_calls env L
  · simpa [create_issues] using (create_issues_loop_spec env mns I []).1

/-- Witness for the amended C7: a full run in the all-empty-success world,
with the three phases' calls in order and the printed summary. -/
theorem claim_C7_witness :
    main envEmpty [labelX] [milestoneA] [issueX]
      = .ok (⟨[["gh"] ++ label_args labelX, ["gh"] ++ milestone_args milestoneA,
               ["gh"] ++ issue_args issueX []],
              ["Setting up GitHub issues for DubiWork/maaser-tracker\n",
               "Creating labels...", "  ✓ Created label: bug",
               "\nCreating milestones...", "\nCreating issues...",
               "\n✅ Setup complete!", "   Created 1 labels",
               "   Created 1 milestones", "   Created 0 issues",
               "\nView at: https://github.com/DubiWork/maaser-tracker/issues"], []⟩) := by
  exact (claim_C7_amended envEmpty [labelX] [milestoneA] [issueX] []
    ⟨[["gh"] ++ milestone_args milestoneA], ["\nCreating milestones..."], []⟩ rfl).1

end SetupGithubIssues
